import Mathlib

/-
Verification of the kosinventory inventory application's core
(transaction reconciliation, stock ledger, UID generation, bulk import)
against a shallow embedding of src/app.py, src/models.py and src/db.py.
-/

namespace KosInventory

/-- A row of the components table (db.py; fields used by app.py). Python ints
are modelled as `Int`. -/
structure Component where
  id : Nat
  uid : Option String
  name : String
  category : String
  lab : String
  lab_id : Nat
  group_id : Option Nat
  group_name : Option String
  initial_quantity : Int
  current_quantity : Int
  status : String
deriving DecidableEq

/-- A row of the transactions table (db.py). Timestamps are abstracted to
`Nat`. -/
structure Transaction where
  id : Nat
  component_name : String
  component_uid : Option String
  lab : String
  lab_id : Nat
  issued_to : String
  campus : String
  quantity_issued : Int
  quantity_returned : Int
  pending_quantity : Int
  status : String
  issue_date : Nat
  return_date : Option Nat
  purpose : String
deriving DecidableEq

/-- Status written on the issue path (app.py 1444), the return path (1509),
the delete-restoration path (1637), and component create/update (1309, 1332):
available when the quantity is at least 10, low_stock otherwise. -/
def twoWayStatus (q : Int) : String :=
  if 10 ≤ q then "available" else "low_stock"

/-- Status written by update_transaction (app.py 1578-1583) and by the
bulk import (app.py 1062-1065): the two-way status, overridden to
out_of_stock when the quantity is exactly 0. -/
def threeWayStatus (q : Int) : String :=
  if q = 0 then "out_of_stock" else twoWayStatus q

/-- The Stock Ledger status rule exactly as the specification states it
(spec section 4.3): out_of_stock at 0, else low_stock below 10, else
available.  Kept separate so that the code's status writes can be compared
against the specified thresholds. -/
def specLedgerStatus (q : Int) : String :=
  if q = 0 then "out_of_stock" else if q < 10 then "low_stock" else "available"

/-! ## Transaction Reconciliation Engine: issue -/

/-- The request body of a POST /api/transactions call with type issue
(app.py 1402-1463), after lab resolution. -/
structure IssueRequest where
  component_name : String
  lab : String
  lab_id : Nat
  issued_to : String
  campus : String
  quantity_issued : Int
  purpose : String
deriving DecidableEq

inductive IssueOutcome where
  /-- "Insufficient quantity available", HTTP 400; nothing written. -/
  | insufficient
  /-- Component row after the write, and the created transaction row. -/
  | ok (comp : Component) (txn : Transaction)
deriving DecidableEq

/-- The issue branch of create_transaction (app.py 1436-1463), applied to the
component row looked up by (name, lab).  `now` is datetime.utcnow() and
`newId` the id generated by the insert. -/
def issueTransaction (comp : Component) (req : IssueRequest) (now : Nat)
    (newId : Nat) : IssueOutcome :=
  if comp.current_quantity < req.quantity_issued then
    .insufficient
  else
    let new_quantity := comp.current_quantity - req.quantity_issued
    .ok
      { comp with current_quantity := new_quantity,
                  status := twoWayStatus new_quantity }
      { id := newId
        component_name := req.component_name
        component_uid := comp.uid
        lab := req.lab
        lab_id := req.lab_id
        issued_to := req.issued_to
        campus := req.campus
        quantity_issued := req.quantity_issued
        quantity_returned := 0
        pending_quantity := req.quantity_issued
        status := "issued"
        issue_date := now
        return_date := none
        purpose := req.purpose }

/-! ## Transaction Reconciliation Engine: return -/

/-- The request body of a POST /api/transactions call with type return
(app.py 1465-1512), after lab resolution. -/
structure ReturnRequest where
  component_name : String
  lab_id : Nat
  issued_to : String
  quantity_returned : Int
deriving DecidableEq

/-- The WHERE clause of the candidate query (app.py 1468-1472): same
component name, lab and recipient, with a positive pending quantity. -/
def matchesReturn (req : ReturnRequest) (t : Transaction) : Bool :=
  (t.component_name == req.component_name) && (t.lab_id == req.lab_id) &&
    (t.issued_to == req.issued_to) && decide (0 < t.pending_quantity)

/-- Of two rows, the one with the earlier issue_date (keeping the first on
ties). -/
def olderOf (a b : Transaction) : Transaction :=
  if b.issue_date < a.issue_date then b else a

/-- The first row of the ORDER BY issue_date ASC result (app.py 1471, 1479):
a row with minimal issue_date, the earliest-listed one on ties. -/
def selectOldest : List Transaction → Option Transaction
  | [] => none
  | t :: ts => some (ts.foldl olderOf t)

/-- Result of a return request: the error message surfaced (if any), the
component row after the request, and the transactions table after the
request. -/
structure ReturnOutcome where
  error : Option String
  comp : Component
  txns : List Transaction
deriving DecidableEq

/-- The return branch of create_transaction (app.py 1465-1512).  `comp` is
the component row fetched at the top of the request handler (1425-1427) and
`txns` the transactions table.  Every Transaction.update / Component.update
runs on its own connection and commits when its cursor closes (db.py
get_cursor), so a write stays persisted even when a later check in the same
request fails: the transaction update at 1500 precedes the
exceeds-initial-stock check at 1504. -/
def returnTransaction (comp : Component) (txns : List Transaction)
    (req : ReturnRequest) (now : Nat) : ReturnOutcome :=
  let issued_transactions := txns.filter (matchesReturn req)
  match selectOldest issued_transactions with
  | none =>
    { error := some "No active issued transactions found for return",
      comp := comp, txns := txns }
  | some issued =>
    if issued.pending_quantity < req.quantity_returned then
      { error := some "Cannot return more than pending quantity",
        comp := comp, txns := txns }
    else
      let new_pending_quantity := issued.pending_quantity - req.quantity_returned
      let new_quantity_returned := issued.quantity_returned + req.quantity_returned
      let new_status :=
        if new_pending_quantity = 0 then "returned" else "partially_returned"
      let txns1 := txns.map fun t =>
        if t.id = issued.id then
          { t with quantity_returned := new_quantity_returned,
                   pending_quantity := new_pending_quantity,
                   status := new_status,
                   return_date :=
                     if new_pending_quantity = 0 then some now else t.return_date }
        else t
      let new_component_quantity := comp.current_quantity + req.quantity_returned
      if comp.initial_quantity < new_component_quantity then
        { error := some "Returned quantity would exceed initial stock",
          comp := comp, txns := txns1 }
      else
        { error := none,
          comp := { comp with current_quantity := new_component_quantity,
                              status := twoWayStatus new_component_quantity },
          txns := txns1 }

/-! ## Transaction Reconciliation Engine: edit -/

/-- Result of a PUT /api/transactions/<id> request editing
quantity_returned: the surfaced error (if any) and the component and
transaction rows after the request. -/
structure EditOutcome where
  error : Option String
  comp : Component
  txn : Transaction
deriving DecidableEq

/-- update_transaction (app.py 1514-1607) for a request body that edits
quantity_returned (data = \x7b quantity_returned: newReturned \x7d).  `comp`
is the component looked up by (component_name, lab_id) of the transaction;
here both validations precede every write. -/
def updateTransactionReturned (comp : Component) (txn : Transaction)
    (newReturned : Int) (now : Nat) : EditOutcome :=
  let returned_delta := newReturned - txn.quantity_returned
  if newReturned < 0 then
    { error := some "Returned quantity cannot be negative",
      comp := comp, txn := txn }
  else if txn.quantity_issued < newReturned then
    { error := some "Returned quantity cannot exceed issued quantity",
      comp := comp, txn := txn }
  else
    let new_pending_quantity := txn.quantity_issued - newReturned
    let compStep : Except String Component :=
      if returned_delta = 0 then .ok comp
      else
        let new_component_quantity := comp.current_quantity + returned_delta
        if comp.initial_quantity < new_component_quantity then
          .error "Cannot return more than initial quantity"
        else if new_component_quantity < 0 then
          .error "Insufficient quantity available"
        else
          .ok { comp with current_quantity := new_component_quantity,
                          status := threeWayStatus new_component_quantity }
    match compStep with
    | .error e => { error := some e, comp := comp, txn := txn }
    | .ok comp1 =>
      let statusDate : String × Option Nat :=
        if newReturned = 0 then ("issued", txn.return_date)
        else if newReturned = txn.quantity_issued then
          ("returned", if txn.return_date = none then some now else txn.return_date)
        else ("partially_returned", txn.return_date)
      { error := none,
        comp := comp1,
        txn := { txn with quantity_returned := newReturned,
                          pending_quantity := new_pending_quantity,
                          status := statusDate.1,
                          return_date := statusDate.2 } }

/-! ## Transaction Reconciliation Engine: delete -/

/-- The component lookup by denormalized (name, lab_id) key used by
update_transaction and delete_transaction (app.py 1538, 1629). -/
def findComponentByNameLab (comps : List Component) (name : String)
    (lab_id : Nat) : Option Component :=
  comps.find? fun c => (c.name == name) && (c.lab_id == lab_id)

/-- Result of a DELETE /api/transactions/<id> request: the components and
transactions tables after the request, and the surfaced error (if any). -/
structure DeleteOutcome where
  comps : List Component
  txns : List Transaction
  error : Option String
deriving DecidableEq

/-- delete_transaction (app.py 1609-1645): if the row exists and has a
positive pending quantity, restore that amount to the matching component
(when one exists); then delete the row. -/
def deleteTransaction (comps : List Component) (txns : List Transaction)
    (tid : Nat) : DeleteOutcome :=
  let txnFound := txns.find? fun t => t.id == tid
  let comps1 :=
    match txnFound with
    | some txn =>
      if 0 < txn.pending_quantity then
        match findComponentByNameLab comps txn.component_name txn.lab_id with
        | some c =>
          let new_quantity := c.current_quantity + txn.pending_quantity
          comps.map fun x =>
            if x.id = c.id then
              { x with current_quantity := new_quantity,
                       status := twoWayStatus new_quantity }
            else x
        | none => comps
      else comps
    | none => comps
  let deleted := txns.any fun t => t.id == tid
  { comps := comps1,
    txns := txns.filter fun t => !(t.id == tid),
    error := if deleted then none else some "Transaction not found" }

/-! ## Identifier Generator -/

/-- A row of the labs table (db.py).  `lab_id` is the display code, e.g.
"LAB-001". -/
structure Lab where
  id : Nat
  name : String
  lab_id : String
  location : String
  status : String
deriving DecidableEq

/-- String.trim evaluated character-wise (drop whitespace from both
ends); kept list-based so concrete instances reduce. -/
def trimStr (s : String) : String :=
  String.mk
    (((s.toList.dropWhile Char.isWhitespace).reverse.dropWhile
        Char.isWhitespace).reverse)

/-- String.toLower evaluated character-wise. -/
def toLowerStr (s : String) : String :=
  String.mk (s.toList.map Char.toLower)

/-- String.toUpper evaluated character-wise. -/
def toUpperStr (s : String) : String :=
  String.mk (s.toList.map Char.toUpper)

/-- The first maximal run of digit characters of a string, as matched by
re.search of one or more digits (app.py 105). -/
def firstDigitRun (s : String) : Option String :=
  match s.toList.dropWhile (fun c => !c.isDigit) with
  | [] => none
  | cs => some (String.mk (cs.takeWhile Char.isDigit))

/-- lstrip of the zero character (app.py 107). -/
def stripLeadingZeros (s : String) : String :=
  String.mk (s.toList.dropWhile fun c => c = '0')

/-- Lab-code derivation inside generate_component_uid (app.py 104-111): the
first digit run of the display code, leading zeros stripped (defaulting to
"1" when that leaves nothing), prefixed with L; with no digits, the first
two characters of the lab name upper-cased. -/
def labCode (lab : Lab) : String :=
  match firstDigitRun lab.lab_id with
  | some digits =>
    let lab_number := stripLeadingZeros digits
    "L" ++ (if lab_number = "" then "1" else lab_number)
  | none => toUpperStr (lab.name.take 2)

/-- Python formatting of a sequence number padded with zeros to width 3
(app.py 122). -/
def pad3 (n : Nat) : String :=
  if n < 10 then "00" ++ toString n
  else if n < 100 then "0" ++ toString n
  else toString n

/-- A candidate UID: COM, the lab code, a dash, the padded sequence number
(app.py 122). -/
def mkUid (code : String) (n : Nat) : String :=
  "COM" ++ code ++ "-" ++ pad3 n

/-- The uid values counted as taken (app.py 113-117): comp.get of uid is
truthy, i.e. present and not the empty string. -/
def usedUids (comps : List Component) : List String :=
  (comps.filter fun c => c.uid.getD "" != "").filterMap fun c => c.uid

/-- The scanning loop of generate_component_uid (app.py 120-127): starting
at sequence number `seq` with `fuel` attempts left, the first sequence
number whose UID is not taken; none once the attempts are exhausted. -/
def scanSeq (used : List String) (code : String) : Nat → Nat → Option Nat
  | _, 0 => none
  | seq, fuel + 1 =>
    if mkUid code seq ∈ used then scanSeq used code (seq + 1) fuel
    else some seq

/-- generate_component_uid (app.py 97-131).  `labs` models the labs table
(Lab.get_by_id is a lookup by `id`); `nowTs` is the utcnow unix timestamp
used by the exhaustion fallback.  The component_name argument of the Python
function is unused there and omitted here.  The loop makes 999 attempts,
for sequence numbers 1..999. -/
def generate_component_uid (labs : List Lab) (labPk : Nat)
    (existing_components : List Component) (nowTs : Nat) : Option String :=
  match labs.find? (fun l => l.id == labPk) with
  | none => none
  | some lab =>
    let lab_code := labCode lab
    match scanSeq (usedUids existing_components) lab_code 1 999 with
    | some n => some (mkUid lab_code n)
    | none => some ("COM" ++ lab_code ++ "-" ++ toString nowTs)

/-! ## Category/Group Normalizer -/

/-- normalize_string (app.py 52-56): trim and lower-case (for a string
input; a falsy or non-string input yields the empty string, which trim and
lower-case also give). -/
def normalize_string (s : String) : String :=
  toLowerStr (trimStr s)

/-- Python str.title on a list of characters: an alphabetic character is
upper-cased after a non-alphabetic one (or at the start) and lower-cased
otherwise; `prevAlpha` says whether the previous character was
alphabetic. -/
def titleCaseGo : List Char → Bool → List Char
  | [], _ => []
  | c :: cs, prevAlpha =>
    if c.isAlpha then
      (if prevAlpha then c.toLower else c.toUpper) :: titleCaseGo cs true
    else
      c :: titleCaseGo cs false

/-- Python str.title. -/
def titleCase (s : String) : String :=
  String.mk (titleCaseGo s.toList false)

/-- find_or_create_category (app.py 58-68): reuse the stored spelling of a
case-insensitive match, else the trimmed input in title case. -/
def find_or_create_category (category_name : String)
    (existing_categories : List String) : String :=
  match existing_categories.find?
      (fun c => normalize_string c == normalize_string category_name) with
  | some existing_category => existing_category
  | none => titleCase (trimStr category_name)

/-- A row of the component_groups table (db.py). -/
structure Group where
  id : Nat
  name : String
  description : String
  color : String
  lab_id : Option Nat
  lab_name : Option String
  auto_created : Bool
deriving DecidableEq

/-- find_or_create_group (app.py 70-94): match case-insensitively among
`existing_groups` scoped by lab; on a miss, insert a new auto-created row
into the table `db` (ids are handed out from `nextId`).  Returns the group
id, the table after the call, and the next free id. -/
def find_or_create_group (group_name : String) (lab_id : Nat)
    (lab_name : String) (existing_groups : List Group) (db : List Group)
    (nextId : Nat) : Option Nat × List Group × Nat :=
  if group_name == "" then (none, db, nextId)
  else
    match existing_groups.find? (fun g =>
        (normalize_string g.name == normalize_string group_name) &&
          (g.lab_id == some lab_id)) with
    | some g => (some g.id, db, nextId)
    | none =>
      let g : Group :=
        { id := nextId
          name := titleCase (trimStr group_name)
          description := "Auto-created group for " ++ lab_name
          color := "#6B7280"
          lab_id := some lab_id
          lab_name := some lab_name
          auto_created := true }
      (some g.id, db ++ [g], nextId + 1)

/-! ## Bulk Import Reconciler -/

/-- The session of the caller of import_components: an admin, or a trainer
scoped to one lab. -/
inductive Session where
  | admin
  | trainer (lab_id : Nat) (lab_name : String)
deriving DecidableEq

/-- One spreadsheet row handed to import_components.  A `none` models a
pandas NaN / absent cell (for a quantity it also covers a non-numeric cell,
where int() raises); a `none` group or uid also covers an absent column. -/
structure ImportRow where
  name : Option String
  category : Option String
  lab : Option String
  initial_quantity : Option Int
  current_quantity : Option Int
  group : Option String
  uid : Option String
deriving DecidableEq

/-- The data import_components works on: the labs table, the in-memory
existing_groups list and the component_groups table behind it, the distinct
categories loaded up front, the in-memory existing_components list and the
components table behind it, the next auto-increment ids, and the utcnow
timestamp for the UID fallback. -/
structure ImportState where
  labs : List Lab
  existing_groups : List Group
  dbGroups : List Group
  nextGroupId : Nat
  existing_categories : List String
  existing_components : List Component
  dbComponents : List Component
  nextComponentId : Nat
  nowTs : Nat
deriving DecidableEq

/-- The outcome of one row: a recorded error (the row is skipped), a newly
inserted component, or an in-place update of an existing component together
with its info message.  The latter two are counted as imported. -/
inductive RowCore where
  | failed (msg : String)
  | created
  | updated (msg : String)
deriving DecidableEq

/-- The UID step of a row (app.py 1030-1043): a provided uid is trimmed and
rejected when some component row already carries it; otherwise one is
generated from the running in-memory component list. -/
def processRowUid (st : ImportState) (row : ImportRow) (lab : Lab) :
    Except String (Option String) :=
  match row.uid with
  | some uid0 =>
    let uid := trimStr uid0
    if (st.dbComponents.find? fun c => c.uid == some uid).isSome then
      .error ("UID '" ++ uid ++ "' already exists")
    else
      .ok (some uid)
  | none =>
    .ok (generate_component_uid st.labs lab.id st.existing_components st.nowTs)

/-- The group step of a row (app.py 1045-1060): resolve or auto-create the
group, fetch the stored row by id, and append it to the in-memory group
list for the following rows.  (The fetch succeeds whenever the in-memory
list mirrors rows of the table, as the route arranges; a missing row yields
no group data.) -/
def processRowGroup (st : ImportState) (row : ImportRow) (lab : Lab) :
    ImportState × Option (Nat × String) :=
  match row.group with
  | none => (st, none)
  | some group0 =>
    let group_name := trimStr group0
    if group_name == "" then (st, none)
    else
      let r := find_or_create_group group_name lab.id lab.name
        st.existing_groups st.dbGroups st.nextGroupId
      let st1 := { st with dbGroups := r.2.1, nextGroupId := r.2.2 }
      match r.1 with
      | none => (st1, none)
      | some group_id =>
        match r.2.1.find? (fun g => g.id == group_id) with
        | none => (st1, none)
        | some g =>
          ({ st1 with existing_groups := st.existing_groups ++ [g] },
           some (group_id, g.name))

/-- The final step of a row (app.py 1062-1105): derive the status, then
update the component with the same (name, lab) in place when one exists,
else insert a new row, keeping the running in-memory component list
current. -/
def processRowStore (st : ImportState) (name0 : String) (category : String)
    (lab : Lab) (initial_quantity current_quantity : Int)
    (uid : Option String) (groupData : Option (Nat × String)) :
    ImportState × RowCore :=
  let status := threeWayStatus current_quantity
  match st.dbComponents.find?
      (fun c => (c.name == trimStr name0) && (c.lab_id == lab.id)) with
  | some existing_component =>
    let applyUpdate := fun (x : Component) =>
      let x1 := { x with category := category,
                         initial_quantity := initial_quantity,
                         current_quantity := current_quantity,
                         status := status }
      let x2 := match uid with
        | some u => if u == "" then x1 else { x1 with uid := some u }
        | none => x1
      match groupData with
      | some gd => { x2 with group_id := some gd.1, group_name := some gd.2 }
      | none => x2
    ({ st with dbComponents := st.dbComponents.map fun x =>
          if x.id = existing_component.id then applyUpdate x else x },
     .updated ("Component '" ++ name0 ++ "' updated (already existed)"))
  | none =>
    let base : Component :=
      { id := st.nextComponentId
        uid := uid
        name := trimStr name0
        category := category
        lab := lab.name
        lab_id := lab.id
        group_id := none
        group_name := none
        initial_quantity := initial_quantity
        current_quantity := current_quantity
        status := status }
    let component_data := match groupData with
      | some gd => { base with group_id := some gd.1, group_name := some gd.2 }
      | none => base
    ({ st with dbComponents := st.dbComponents ++ [component_data],
               existing_components := st.existing_components ++ [component_data],
               nextComponentId := st.nextComponentId + 1 },
     .created)

/-- One row of the import loop (app.py 987-1105) up to the message label:
validations, lab resolution, the trainer scope check, category
normalization, the UID step, the group step, and the store step, each
aborting the row (and only the row) on failure. -/
def processRowCore (sess : Session) (st : ImportState) (row : ImportRow) :
    ImportState × RowCore :=
  match row.name, row.category, row.lab with
  | some name0, some category0, some lab0 =>
    match row.initial_quantity, row.current_quantity with
    | some initial_quantity, some current_quantity =>
      if initial_quantity < 0 ∨ current_quantity < 0 then
        (st, .failed "Quantity values must be non-negative")
      else
        let lab_name := trimStr lab0
        match st.labs.find?
            (fun l => normalize_string l.name == normalize_string lab_name) with
        | none => (st, .failed ("Lab '" ++ lab_name ++ "' not found"))
        | some lab =>
          let scopeFailure : Option String :=
            match sess with
            | .admin => none
            | .trainer trainer_lab_id session_lab_name =>
              if lab.id = trainer_lab_id then none
              else some ("You can only import components for your assigned lab '"
                ++ session_lab_name ++ "'")
          match scopeFailure with
          | some m => (st, .failed m)
          | none =>
            let category := find_or_create_category category0 st.existing_categories
            match processRowUid st row lab with
            | .error m => (st, .failed m)
            | .ok uid =>
              let g := processRowGroup st row lab
              processRowStore g.1 name0 category lab initial_quantity
                current_quantity uid g.2
    | _, _ => (st, .failed "Invalid quantity values")
  | _, _, _ =>
    (st, .failed "Missing required fields (name, category, or lab)")

/-- Prefix a row outcome's message with its 1-indexed row label, as each
append site in import_components does (the label of row index `idx`, 0-based
as iterrows yields it, is "Row idx+1: "). -/
def attachIndex (idx : Nat) : RowCore → RowCore
  | .failed m => .failed ("Row " ++ toString (idx + 1) ++ ": " ++ m)
  | .created => .created
  | .updated m => .updated ("Row " ++ toString (idx + 1) ++ ": " ++ m)

/-- One row of the import loop, with its labelled messages. -/
def processRow (sess : Session) (st : ImportState) (idx : Nat)
    (row : ImportRow) : ImportState × RowCore :=
  let p := processRowCore sess st row
  (p.1, attachIndex idx p.2)

/-- Run the import loop from row index `idx` on, threading the state and
collecting every row's outcome. -/
def runRows (sess : Session) :
    ImportState → Nat → List ImportRow → ImportState × List RowCore
  | st, _, [] => (st, [])
  | st, idx, row :: rest =>
    let p := processRow sess st idx row
    let q := runRows sess p.1 (idx + 1) rest
    (q.1, p.2 :: q.2)

/-- The response body of import_components (app.py 1110-1115). -/
structure ImportResult where
  imported_count : Nat
  errors : List String
  total_rows : Nat
deriving DecidableEq

/-- The messages a row outcome appends to the errors list: one error for a
failed row, one info message for an updated row, none for a created row. -/
def rowMessages : RowCore → List String
  | .failed m => [m]
  | .created => []
  | .updated m => [m]

/-- The contribution of a row outcome to imported_count. -/
def rowCount : RowCore → Nat
  | .failed _ => 0
  | .created => 1
  | .updated _ => 1

def collectCount : List RowCore → Nat
  | [] => 0
  | o :: os => rowCount o + collectCount os

def collectMessages : List RowCore → List String
  | [] => []
  | o :: os => rowMessages o ++ collectMessages os

/-- import_components (app.py 940-1118) from the per-row loop on: every row
is processed in order, a failure is recorded and the loop moves on, and the
response reports the success count, the message list and the row count. -/
def import_components (sess : Session) (st : ImportState)
    (rows : List ImportRow) : ImportResult :=
  let p := runRows sess st 0 rows
  { imported_count := collectCount p.2
    errors := collectMessages p.2
    total_rows := rows.length }

/-! ## Component create/update routes (status derivation) -/

/-- update_component (app.py 1316-1361) for a request body that sets
current_quantity (and no group fields): the status stored with it is
derived at 1331-1332 and Component.update writes both columns on the row
with the given id. -/
def updateComponentQuantity (comps : List Component) (component_id : Nat)
    (data_current : Int) : List Component :=
  comps.map fun x =>
    if x.id = component_id then
      { x with current_quantity := data_current,
               status := twoWayStatus data_current }
    else x

/-- The component row create_component builds and inserts (app.py
1301-1313), given the generated uid, the resolved lab and the optional
group data. -/
def createComponentRow (newId : Nat) (uid : Option String)
    (name category labName : String) (lab_id : Nat)
    (groupData : Option (Nat × String)) (initial current : Int) : Component :=
  { id := newId
    uid := uid
    name := name
    category := category
    lab := labName
    lab_id := lab_id
    group_id := groupData.map Prod.fst
    group_name := groupData.map Prod.snd
    initial_quantity := initial
    current_quantity := current
    status := twoWayStatus current }

/-! ## General facts about the embedding -/

/-- The balance invariant of a transaction row (spec sections 3 and 8). -/
def txnInvariant (t : Transaction) : Prop :=
  t.quantity_returned + t.pending_quantity = t.quantity_issued

instance (t : Transaction) : Decidable (txnInvariant t) := by
  unfold txnInvariant; infer_instance

/-- The bounds invariant of a component row (spec sections 3 and 8). -/
def compBounds (c : Component) : Prop :=
  0 ≤ c.current_quantity ∧ c.current_quantity ≤ c.initial_quantity

instance (c : Component) : Decidable (compBounds c) := by
  unfold compBounds; infer_instance

/-! ## Concrete fixtures used by the claim theorems and witnesses -/

/-- A component whose stock was replenished out of band (e.g. by a
bulk-import row that reset current_quantity) while 5 units are out on an open
issue. -/
def c1Comp : Component :=
  ⟨1, some "COML1-001", "Arduino Uno", "Boards", "Main Lab", 1,
    none, none, 10, 8, "low_stock"⟩

def c1Txn : Transaction :=
  ⟨1, "Arduino Uno", some "COML1-001", "Main Lab", 1, "Alice", "North",
    5, 0, 5, "issued", 100, none, "course"⟩

def c1Req : ReturnRequest := ⟨"Arduino Uno", 1, "Alice", 3⟩

/-- A transaction on a component no row of the components table matches. -/
def c10Txn : Transaction :=
  ⟨4, "Ghost Component", none, "Main Lab", 1, "Bob", "",
    7, 0, 7, "issued", 50, none, ""⟩

/-- A fully stocked 5-unit component: issuing all of it drives the quantity
to 0. -/
def c2Comp : Component :=
  ⟨2, some "COML1-002", "Breadboard", "Proto", "Main Lab", 1,
    none, none, 5, 5, "low_stock"⟩

def c2Req : IssueRequest :=
  ⟨"Breadboard", "Main Lab", 1, "Dana", "North", 5, "demo"⟩

def c2CompAfter : Component :=
  { c2Comp with current_quantity := 0, status := "low_stock" }

def c2TxnAfter : Transaction :=
  ⟨2, "Breadboard", some "COML1-002", "Main Lab", 1, "Dana", "North",
    5, 0, 5, "issued", 100, none, "demo"⟩

/-- Scenario A fixture: Raspberry Pi 4 with 25 of 25 units in stock. -/
def piComp : Component :=
  ⟨3, some "COML2-001", "Raspberry Pi 4", "Boards", "Hardware Lab", 2,
    none, none, 25, 25, "available"⟩

def piIssueReq : IssueRequest :=
  ⟨"Raspberry Pi 4", "Hardware Lab", 2, "Asha", "North", 21, "workshop"⟩

def piCompAfter : Component :=
  { piComp with current_quantity := 4, status := "low_stock" }

def piTxn : Transaction :=
  ⟨5, "Raspberry Pi 4", some "COML2-001", "Hardware Lab", 2, "Asha",
    "North", 21, 0, 21, "issued", 100, none, "workshop"⟩

def piIssueReq10 : IssueRequest :=
  ⟨"Raspberry Pi 4", "Hardware Lab", 2, "Asha", "North", 10, "workshop"⟩

def mainLab : Lab := ⟨1, "Main Lab", "LAB-001", "Block A", "active"⟩

/-- An import run against a fresh database holding one lab. -/
def c3State : ImportState := ⟨[mainLab], [], [], 1, [], [], [], 1, 0⟩

/-- A row whose current_quantity exceeds its initial_quantity. -/
def c3Row : ImportRow :=
  ⟨some "Widget", some "Misc", some "Main Lab", some 5, some 20, none, none⟩

/-- The component the import of c3Row stores. -/
def c3CompOut : Component :=
  ⟨1, some "COML1-001", "Widget", "Misc", "Main Lab", 1,
    none, none, 5, 20, "available"⟩

/-- A recipient with two open issues of the same component: the younger one
(id 11, issue_date 500) has 10 pending, the older one (id 12, issue_date
300) has 2 pending. -/
def c5Comp : Component :=
  ⟨9, some "COML1-009", "Sensor", "Sensors", "Main Lab", 1,
    none, none, 30, 10, "available"⟩

def c5TxnNew : Transaction :=
  ⟨11, "Sensor", some "COML1-009", "Main Lab", 1, "Evan", "",
    10, 0, 10, "issued", 500, none, ""⟩

def c5TxnOld : Transaction :=
  ⟨12, "Sensor", some "COML1-009", "Main Lab", 1, "Evan", "",
    2, 0, 2, "issued", 300, none, ""⟩

def c5Req : ReturnRequest := ⟨"Sensor", 1, "Evan", 5⟩

/-- An issue of the entire 25-unit stock. -/
def c6Req : IssueRequest :=
  ⟨"Raspberry Pi 4", "Hardware Lab", 2, "Asha", "North", 25, "clearout"⟩

/-- Scenario C lab: "LAB-003" / "Automation Hub". -/
def hubLab : Lab := ⟨3, "Automation Hub", "LAB-003", "Block C", "active"⟩

/-- A lab whose display code's digit run is all zeros. -/
def zeroLab : Lab := ⟨7, "Automation Hub", "LAB-000", "Block Z", "active"⟩

/-- The first component persisted for hubLab, carrying the first generated
UID. -/
def hubComp : Component :=
  ⟨10, some "COML3-001", "Conveyor", "Automation", "Automation Hub", 3,
    none, none, 5, 5, "low_stock"⟩

/-- Scenario E import state: one lab, otherwise empty database. -/
def e5State : ImportState := ⟨[mainLab], [], [], 1, [], [], [], 1, 0⟩

def e5Row1 : ImportRow :=
  ⟨some "Resistor Kit", some "passives", some "Main Lab",
    some 5, some 5, none, none⟩

/-- The middle row names a lab that does not exist. -/
def e5Row2 : ImportRow :=
  ⟨some "Servo", some "actuators", some "Ghost Lab",
    some 4, some 4, none, none⟩

def e5Row3 : ImportRow :=
  ⟨some "LED Pack", some "passives", some "Main Lab",
    some 12, some 12, none, none⟩

/-- The number of failed rows among a list of row outcomes. -/
def failCount : List RowCore → Nat
  | [] => 0
  | o :: os =>
    (match o with
      | .failed _ => 1
      | .created => 0
      | .updated _ => 0) + failCount os

def c6CompAfter : Component :=
  { piComp with current_quantity := 0, status := "low_stock" }

def c6TxnAfter : Transaction :=
  ⟨6, "Raspberry Pi 4", some "COML2-001", "Hardware Lab", 2, "Asha",
    "North", 25, 0, 25, "issued", 100, none, "clearout"⟩

theorem foldl_olderOf_mem (a : Transaction) (l : List Transaction) :
    l.foldl olderOf a = a ∨ l.foldl olderOf a ∈ l := by
  induction l generalizing a with
  | nil => exact Or.inl rfl
  | cons c cs ih =>
    simp only [List.foldl_cons]
    rcases ih (olderOf a c) with h | h
    · rw [h]
      unfold olderOf
      split
      · exact Or.inr (List.mem_cons_self _ _)
      · exact Or.inl rfl
    · exact Or.inr (List.mem_cons_of_mem _ h)

theorem foldl_olderOf_le (a : Transaction) (l : List Transaction) :
    (l.foldl olderOf a).issue_date ≤ a.issue_date ∧
      ∀ b ∈ l, (l.foldl olderOf a).issue_date ≤ b.issue_date := by
  induction l generalizing a with
  | nil => exact ⟨Nat.le_refl _, by simp⟩
  | cons c cs ih =>
    simp only [List.foldl_cons]
    have h := ih (olderOf a c)
    have hac : (olderOf a c).issue_date ≤ a.issue_date ∧
        (olderOf a c).issue_date ≤ c.issue_date := by
      unfold olderOf; split <;> omega
    refine ⟨Nat.le_trans h.1 hac.1, ?_⟩
    intro b hb
    rcases List.mem_cons.mp hb with rfl | hb
    · exact Nat.le_trans h.1 hac.2
    · exact h.2 b hb

/-- The selected row of a return is a candidate with minimal issue_date. -/
theorem selectOldest_mem_min {l : List Transaction} {t : Transaction}
    (h : selectOldest l = some t) :
    t ∈ l ∧ ∀ b ∈ l, t.issue_date ≤ b.issue_date := by
  match l with
  | [] => simp [selectOldest] at h
  | a :: as =>
    simp only [selectOldest, Option.some.injEq] at h
    subst h
    constructor
    · rcases foldl_olderOf_mem a as with h | h
      · rw [h]; exact List.mem_cons_self _ _
      · exact List.mem_cons_of_mem _ h
    · intro b hb
      have h := foldl_olderOf_le a as
      rcases List.mem_cons.mp hb with rfl | hb
      · exact h.1
      · exact h.2 b hb

theorem selectOldest_eq_none {l : List Transaction} :
    selectOldest l = none ↔ l = [] := by
  cases l <;> simp [selectOldest]

theorem find?_eq_some_facts {α : Type _} {p : α → Bool} {l : List α} {a : α}
    (h : l.find? p = some a) : a ∈ l ∧ p a = true := by
  induction l with
  | nil => simp at h
  | cons x xs ih =>
    cases hx : p x with
    | true =>
      simp only [List.find?, hx] at h
      cases h
      exact ⟨List.mem_cons_self _ _, hx⟩
    | false =>
      simp only [List.find?, hx] at h
      obtain ⟨hm, hp⟩ := ih h
      exact ⟨List.mem_cons_of_mem _ hm, hp⟩

/-- The shape of a successful issue. -/
theorem issueTransaction_ok_iff (comp : Component) (req : IssueRequest)
    (now nid : Nat) {c : Component} {t : Transaction} :
    issueTransaction comp req now nid = .ok c t ↔
      req.quantity_issued ≤ comp.current_quantity ∧
        c = { comp with
                current_quantity := comp.current_quantity - req.quantity_issued,
                status :=
                  twoWayStatus (comp.current_quantity - req.quantity_issued) } ∧
        t = { id := nid
              component_name := req.component_name
              component_uid := comp.uid
              lab := req.lab
              lab_id := req.lab_id
              issued_to := req.issued_to
              campus := req.campus
              quantity_issued := req.quantity_issued
              quantity_returned := 0
              pending_quantity := req.quantity_issued
              status := "issued"
              issue_date := now
              return_date := none
              purpose := req.purpose } := by
  unfold issueTransaction
  split
  · constructor
    · intro h; cases h
    · intro h; omega
  · constructor
    · intro h
      injection h with h1 h2
      exact ⟨by omega, h1.symm, h2.symm⟩
    · intro h
      rw [h.2.1, h.2.2]

/-- An issue reports insufficient stock exactly when the requested quantity
is larger than the current quantity. -/
theorem issueTransaction_insufficient_iff (comp : Component)
    (req : IssueRequest) (now nid : Nat) :
    issueTransaction comp req now nid = .insufficient ↔
      comp.current_quantity < req.quantity_issued := by
  unfold issueTransaction
  split
  · simp_all
  · constructor
    · intro h; cases h
    · intro h; omega

/-- A return either fails leaving the component row as it was, or succeeds
having added the returned quantity, with the upper bound checked. -/
theorem returnTransaction_comp_cases (comp : Component)
    (txns : List Transaction) (req : ReturnRequest) (now : Nat) :
    ((returnTransaction comp txns req now).comp = comp ∧
        (∃ e, (returnTransaction comp txns req now).error = some e)) ∨
      ((returnTransaction comp txns req now).error = none ∧
        (returnTransaction comp txns req now).comp =
          { comp with
              current_quantity :=
                comp.current_quantity + req.quantity_returned,
              status :=
                twoWayStatus
                  (comp.current_quantity + req.quantity_returned) } ∧
        comp.current_quantity + req.quantity_returned ≤
          comp.initial_quantity) := by
  simp only [returnTransaction]
  split
  · exact Or.inl ⟨rfl, _, rfl⟩
  · split
    · exact Or.inl ⟨rfl, _, rfl⟩
    · split
      · exact Or.inl ⟨rfl, _, rfl⟩
      · next hexceeds => exact Or.inr ⟨rfl, rfl, by omega⟩

/-- The transactions table after a return is unchanged, or the selected
oldest candidate cleared the over-return check and exactly the rows with
its id were rewritten. -/
theorem returnTransaction_txns_cases (comp : Component)
    (txns : List Transaction) (req : ReturnRequest) (now : Nat) :
    (returnTransaction comp txns req now).txns = txns ∨
      ∃ issued, selectOldest (txns.filter (matchesReturn req)) = some issued ∧
        ¬ issued.pending_quantity < req.quantity_returned ∧
        (returnTransaction comp txns req now).txns = txns.map fun t =>
          if t.id = issued.id then
            { t with
                quantity_returned :=
                  issued.quantity_returned + req.quantity_returned,
                pending_quantity :=
                  issued.pending_quantity - req.quantity_returned,
                status :=
                  if issued.pending_quantity - req.quantity_returned = 0 then
                    "returned"
                  else "partially_returned",
                return_date :=
                  if issued.pending_quantity - req.quantity_returned = 0 then
                    some now
                  else t.return_date }
          else t := by
  simp only [returnTransaction]
  split
  · exact Or.inl rfl
  · next issued heq =>
    split
    · exact Or.inl rfl
    · next hover =>
      split
      · exact Or.inr ⟨issued, heq, hover, rfl⟩
      · exact Or.inr ⟨issued, heq, hover, rfl⟩

/-- A return of exactly the selected transaction's pending quantity, with
the stock bound respected, settles the transaction in full. -/
theorem returnTransaction_full_return (comp : Component)
    (txns : List Transaction) (req : ReturnRequest) (now : Nat)
    (sel : Transaction)
    (hsel : selectOldest (txns.filter (matchesReturn req)) = some sel)
    (hfull : sel.pending_quantity = req.quantity_returned)
    (hbound : comp.current_quantity + req.quantity_returned ≤
      comp.initial_quantity) :
    returnTransaction comp txns req now =
      { error := none,
        comp := { comp with
          current_quantity := comp.current_quantity + req.quantity_returned,
          status :=
            twoWayStatus (comp.current_quantity + req.quantity_returned) },
        txns := txns.map fun t =>
          if t.id = sel.id then
            { t with
                quantity_returned :=
                  sel.quantity_returned + req.quantity_returned,
                pending_quantity := 0,
                status := "returned",
                return_date := some now }
          else t } := by
  have h0 : sel.pending_quantity - req.quantity_returned = 0 := by omega
  have hnotover : ¬ sel.pending_quantity < req.quantity_returned := by omega
  have hnotex : ¬ comp.initial_quantity <
      comp.current_quantity + req.quantity_returned := by omega
  simp only [returnTransaction, hsel, if_neg hnotover, h0, if_neg hnotex]
  simp

/-- An edit either leaves the component row as it was, or succeeds having
applied the returned-quantity delta, with both bounds checked. -/
theorem updateTransactionReturned_comp_cases (comp : Component)
    (txn : Transaction) (r : Int) (now : Nat) :
    (updateTransactionReturned comp txn r now).comp = comp ∨
      ((updateTransactionReturned comp txn r now).error = none ∧
        (updateTransactionReturned comp txn r now).comp =
          { comp with
              current_quantity :=
                comp.current_quantity + (r - txn.quantity_returned),
              status :=
                threeWayStatus
                  (comp.current_quantity + (r - txn.quantity_returned)) } ∧
        0 ≤ comp.current_quantity + (r - txn.quantity_returned) ∧
        comp.current_quantity + (r - txn.quantity_returned) ≤
          comp.initial_quantity) := by
  simp only [updateTransactionReturned]
  split
  · exact Or.inl rfl
  · split
    · exact Or.inl rfl
    · split
      · exact Or.inl rfl
      · next comp1 heq =>
        split at heq
        · cases heq
          exact Or.inl rfl
        · split at heq
          · cases heq
          · split at heq
            · cases heq
            · cases heq
              next hexceeds hbelow =>
                exact Or.inr ⟨rfl, rfl, by omega, by omega⟩

/-- The transaction row after an edit is unchanged, or its
quantity_returned was set to the requested value with pending_quantity
recomputed from the unchanged quantity_issued. -/
theorem updateTransactionReturned_txn_cases (comp : Component)
    (txn : Transaction) (r : Int) (now : Nat) :
    (updateTransactionReturned comp txn r now).txn = txn ∨
      ((updateTransactionReturned comp txn r now).txn.quantity_returned = r ∧
        (updateTransactionReturned comp txn r now).txn.pending_quantity =
          txn.quantity_issued - r ∧
        (updateTransactionReturned comp txn r now).txn.quantity_issued =
          txn.quantity_issued) := by
  simp only [updateTransactionReturned]
  split
  · exact Or.inl rfl
  · split
    · exact Or.inl rfl
    · split
      · exact Or.inl rfl
      · exact Or.inr ⟨rfl, rfl, rfl⟩

/-- Every component row after a delete is either an untouched old row or
carries the two-way status of its new quantity. -/
theorem deleteTransaction_comp_mem {comps : List Component}
    {txns : List Transaction} {tid : Nat} {c : Component}
    (hmem : c ∈ (deleteTransaction comps txns tid).comps) :
    c ∈ comps ∨ c.status = twoWayStatus c.current_quantity := by
  simp only [deleteTransaction] at hmem
  split at hmem
  · split at hmem
    · split at hmem
      · obtain ⟨x, hx, rfl⟩ := List.mem_map.mp hmem
        split
        · exact Or.inr rfl
        · exact Or.inl hx
      · exact Or.inl hmem
    · exact Or.inl hmem
  · exact Or.inl hmem

/-- Every component row after an import store step is either an untouched
old row or carries the three-way status of the row's current quantity. -/
theorem processRowStore_comp_mem {st : ImportState} {n cat : String}
    {lab : Lab} {iq cq : Int} {uid : Option String}
    {gd : Option (Nat × String)} {c : Component}
    (hmem : c ∈ (processRowStore st n cat lab iq cq uid gd).1.dbComponents) :
    c ∈ st.dbComponents ∨ c.status = threeWayStatus cq := by
  simp only [processRowStore] at hmem
  split at hmem
  · simp only at hmem
    obtain ⟨x, hx, rfl⟩ := List.mem_map.mp hmem
    split
    · refine Or.inr ?_
      repeat' split
      all_goals rfl
    · exact Or.inl hx
  · simp only at hmem
    rcases List.mem_append.mp hmem with h | h
    · exact Or.inl h
    · rcases List.mem_singleton.mp h with rfl
      refine Or.inr ?_
      repeat' split
      all_goals rfl

/-- Every component row after a quantity-setting component update is either
an untouched old row or carries the two-way status of the new quantity. -/
theorem updateComponentQuantity_mem {comps : List Component} {cid : Nat}
    {q : Int} {c : Component}
    (hmem : c ∈ updateComponentQuantity comps cid q) :
    c ∈ comps ∨ c.status = twoWayStatus q := by
  simp only [updateComponentQuantity] at hmem
  obtain ⟨x, hx, rfl⟩ := List.mem_map.mp hmem
  split
  · exact Or.inr rfl
  · exact Or.inl hx

/-- C1: the claim says a Return that fails the exceeds-initial-stock check
reports the error with neither row mutated.  The code is wrong: the check
at app.py 1504 runs after the Transaction.update at 1500 has already been
committed on its own connection (db.py get_cursor commits per cursor), so
the failing request leaves the transaction row updated (quantity_returned
3, pending_quantity 2, status partially_returned) while the component row
is untouched — 3 units of stock are silently lost.  Evaluated here on the
failing input: component 8/10 with an open issue of 5, returning 3. -/
theorem c1_exceeds_initial_stock_persists_transaction_write :
    (returnTransaction c1Comp [c1Txn] c1Req 200).error =
        some "Returned quantity would exceed initial stock" ∧
      (returnTransaction c1Comp [c1Txn] c1Req 200).comp = c1Comp ∧
      (returnTransaction c1Comp [c1Txn] c1Req 200).txns =
        [{ c1Txn with quantity_returned := 3, pending_quantity := 2,
                      status := "partially_returned" }] ∧
      (returnTransaction c1Comp [c1Txn] c1Req 200).txns ≠ [c1Txn] := by
  decide

/-- C10: deleting a transaction with positive pending quantity whose
(component_name, lab_id) pair matches no component row still deletes the
row and reports success; the components table is unchanged and no NotFound
error is surfaced — the outstanding pending stock is silently dropped. -/
theorem c10_delete_missing_component_silently_drops_pending :
    ∀ (comps : List Component) (txns : List Transaction) (tid : Nat)
      (txn : Transaction),
      txns.find? (fun t => t.id == tid) = some txn →
      0 < txn.pending_quantity →
      findComponentByNameLab comps txn.component_name txn.lab_id = none →
      (deleteTransaction comps txns tid).comps = comps ∧
        (deleteTransaction comps txns tid).error = none ∧
        (deleteTransaction comps txns tid).txns =
          txns.filter (fun t => !(t.id == tid)) ∧
        txn ∉ (deleteTransaction comps txns tid).txns := by
  intro comps txns tid txn hfind hpend hcomp
  obtain ⟨hmemtxn, hp⟩ := find?_eq_some_facts hfind
  have hdel : (txns.any fun t => t.id == tid) = true :=
    List.any_eq_true.mpr ⟨txn, hmemtxn, hp⟩
  simp only [deleteTransaction, hfind, if_pos hpend, hcomp, hdel]
  refine ⟨trivial, by simp, trivial, ?_⟩
  intro hmem
  have hkeep := (List.mem_filter.mp hmem).2
  rw [hp] at hkeep
  simp at hkeep

/-- Closed instance of C10: one orphaned transaction, empty components
table. -/
theorem c10_delete_missing_component_witness :
    (deleteTransaction [] [c10Txn] 4).comps = [] ∧
      (deleteTransaction [] [c10Txn] 4).error = none := by
  have h := c10_delete_missing_component_silently_drops_pending
    [] [c10Txn] 4 c10Txn (by decide) (by decide) (by decide)
  exact ⟨h.1, h.2.1⟩

/-- C2 fails on the code: issuing the whole 5-unit stock stores quantity 0
with status low_stock, not the out_of_stock the uniform threshold rule
prescribes at 0 (the issue path, app.py 1444, never writes
out_of_stock). -/
theorem c2_issue_to_zero_stores_low_stock :
    issueTransaction c2Comp c2Req 100 2 = .ok c2CompAfter c2TxnAfter ∧
      c2CompAfter.current_quantity = 0 ∧
      c2CompAfter.status = "low_stock" ∧
      c2CompAfter.status ≠ specLedgerStatus c2CompAfter.current_quantity := by
  decide

/-- C2 amended: Edit and bulk import derive the stored status by the
spec's three-way rule (out_of_stock at 0, low_stock below 10, available at
10 or more); Issue, Return, Delete-restoration and component create/update
derive it by the two-way rule (available at 10 or more, else low_stock),
which agrees with the three-way rule exactly when the new quantity is
nonzero and never stores out_of_stock. -/
theorem c2_status_rules_by_mutation_path :
    (∀ q : Int, threeWayStatus q = specLedgerStatus q) ∧
      (∀ q : Int, twoWayStatus q ≠ "out_of_stock") ∧
      (∀ q : Int, q ≠ 0 → twoWayStatus q = specLedgerStatus q) ∧
      (∀ (comp : Component) (req : IssueRequest) (now nid : Nat)
        (c : Component) (t : Transaction),
        issueTransaction comp req now nid = .ok c t →
        c.status = twoWayStatus c.current_quantity) ∧
      (∀ (comp : Component) (txns : List Transaction) (req : ReturnRequest)
        (now : Nat), (returnTransaction comp txns req now).error = none →
        (returnTransaction comp txns req now).comp.status =
          twoWayStatus
            (returnTransaction comp txns req now).comp.current_quantity) ∧
      (∀ (comp : Component) (txn : Transaction) (r : Int) (now : Nat),
        (updateTransactionReturned comp txn r now).error = none →
        (updateTransactionReturned comp txn r now).comp = comp ∨
          (updateTransactionReturned comp txn r now).comp.status =
            threeWayStatus
              (updateTransactionReturned comp txn r now).comp.current_quantity) ∧
      (∀ (comps : List Component) (txns : List Transaction) (tid : Nat)
        (c : Component), c ∈ (deleteTransaction comps txns tid).comps →
        c ∈ comps ∨ c.status = twoWayStatus c.current_quantity) ∧
      (∀ (st : ImportState) (n cat : String) (lab : Lab) (iq cq : Int)
        (uid : Option String) (gd : Option (Nat × String)) (c : Component),
        c ∈ (processRowStore st n cat lab iq cq uid gd).1.dbComponents →
        c ∈ st.dbComponents ∨ c.status = threeWayStatus cq) ∧
      (∀ (comps : List Component) (cid : Nat) (q : Int) (c : Component),
        c ∈ updateComponentQuantity comps cid q →
        c ∈ comps ∨ c.status = twoWayStatus q) ∧
      (∀ (nid : Nat) (uid : Option String) (n cat lb : String)
        (lbid : Nat) (gd : Option (Nat × String)) (iq cq : Int),
        (createComponentRow nid uid n cat lb lbid gd iq cq).status =
          twoWayStatus cq) := by
  refine ⟨?_, ?_, ?_, ?_, ?_, ?_, ?_, ?_, ?_, ?_⟩
  · intro q
    unfold threeWayStatus specLedgerStatus twoWayStatus
    by_cases h0 : q = 0
    · rw [if_pos h0, if_pos h0]
    · rw [if_neg h0, if_neg h0]
      by_cases h10 : 10 ≤ q
      · rw [if_pos h10, if_neg (by omega)]
      · rw [if_neg h10, if_pos (by omega)]
  · intro q
    unfold twoWayStatus
    split <;> decide
  · intro q h0
    unfold twoWayStatus specLedgerStatus
    rw [if_neg h0]
    by_cases h10 : 10 ≤ q
    · rw [if_pos h10, if_neg (by omega)]
    · rw [if_neg h10, if_pos (by omega)]
  · intro comp req now nid c t h
    obtain ⟨-, rfl, -⟩ := (issueTransaction_ok_iff comp req now nid).mp h
    rfl
  · intro comp txns req now herr
    rcases returnTransaction_comp_cases comp txns req now with
      ⟨-, e, he⟩ | ⟨-, hcomp, -⟩
    · rw [herr] at he; cases he
    · rw [hcomp]
  · intro comp txn r now herr
    rcases updateTransactionReturned_comp_cases comp txn r now with
      h | ⟨-, hcomp, -⟩
    · exact Or.inl h
    · exact Or.inr (by rw [hcomp])
  · intro comps txns tid c hmem
    exact deleteTransaction_comp_mem hmem
  · intro st n cat lab iq cq uid gd c hmem
    exact processRowStore_comp_mem hmem
  · intro comps cid q c hmem
    exact updateComponentQuantity_mem hmem
  · intro nid uid n cat lb lbid gd iq cq
    rfl

/-- Closed instance of the issue conjunct of the amended C2, at the 5-unit
issue that empties the stock. -/
theorem c2_status_rules_witness :
    c2CompAfter.status = twoWayStatus c2CompAfter.current_quantity :=
  c2_status_rules_by_mutation_path.2.2.2.1 c2Comp c2Req 100 2
    c2CompAfter c2TxnAfter (by decide)

/-- C6 fails on the code in one corner: issuing all 25 units of the 25-unit
stock leaves current_quantity 0 with status low_stock, while the Ledger
thresholds of spec section 4.3 prescribe out_of_stock at 0 (the issue path
never writes out_of_stock). -/
theorem c6_full_issue_stores_low_stock :
    issueTransaction piComp c6Req 100 6 = .ok c6CompAfter c6TxnAfter ∧
      c6CompAfter.current_quantity = 0 ∧
      c6CompAfter.status = "low_stock" ∧
      specLedgerStatus 0 = "out_of_stock" ∧
      c6CompAfter.status ≠ specLedgerStatus c6CompAfter.current_quantity := by
  decide

/-- C6 amended: an issue fails with InsufficientStock (mutating nothing)
exactly when the requested quantity exceeds the current quantity; on
success it decrements current_quantity by the requested quantity,
recomputes the status by the two-way rule (available at 10 or more, else
low_stock — never out_of_stock, even at 0), and creates a transaction row
with quantity_returned 0, pending_quantity equal to the issued quantity,
status issued and issue_date now. -/
theorem c6_issue_characterization :
    ∀ (comp : Component) (req : IssueRequest) (now nid : Nat),
      (issueTransaction comp req now nid = .insufficient ↔
        comp.current_quantity < req.quantity_issued) ∧
      (∀ (c : Component) (t : Transaction),
        issueTransaction comp req now nid = .ok c t →
        c.current_quantity = comp.current_quantity - req.quantity_issued ∧
        c.initial_quantity = comp.initial_quantity ∧
        c.status = twoWayStatus (comp.current_quantity - req.quantity_issued) ∧
        t.quantity_returned = 0 ∧
        t.pending_quantity = req.quantity_issued ∧
        t.quantity_issued = req.quantity_issued ∧
        t.status = "issued" ∧
        t.issue_date = now ∧
        t.return_date = none) := by
  intro comp req now nid
  refine ⟨issueTransaction_insufficient_iff comp req now nid, ?_⟩
  intro c t h
  obtain ⟨-, rfl, rfl⟩ := (issueTransaction_ok_iff comp req now nid).mp h
  exact ⟨rfl, rfl, rfl, rfl, rfl, rfl, rfl, rfl, rfl⟩

/-- Scenario A, closed: issuing 21 of the 25-unit Raspberry Pi stock leaves
4 units (low_stock) and a pending quantity of 21; a further issue of 10
fails with InsufficientStock. -/
theorem c6_issue_witness :
    issueTransaction piComp piIssueReq 100 5 = .ok piCompAfter piTxn ∧
      piCompAfter.current_quantity = 4 ∧
      piCompAfter.status = "low_stock" ∧
      piTxn.pending_quantity = 21 ∧
      issueTransaction piCompAfter piIssueReq10 200 6 = .insufficient := by
  refine ⟨by decide, by decide, by decide, by decide, ?_⟩
  exact (c6_issue_characterization piCompAfter piIssueReq10 200 6).1.mpr
    (by decide)

/-- C3 fails on the code: bulk import validates only that both quantities
are non-negative (app.py 994-1004), never that current_quantity is at most
initial_quantity, so a row with initial 5 and current 20 is imported
without error and stores a component violating the bounds invariant. -/
theorem c3_import_stores_current_above_initial :
    (import_components .admin c3State [c3Row]).imported_count = 1 ∧
      (import_components .admin c3State [c3Row]).errors = [] ∧
      (runRows .admin c3State 0 [c3Row]).1.dbComponents = [c3CompOut] ∧
      c3CompOut.initial_quantity = 5 ∧
      c3CompOut.current_quantity = 20 ∧
      ¬ compBounds c3CompOut := by
  decide

/-- C3 amended: the bounds invariant is preserved by the transaction paths
that validate it — Issue and Return (given a non-negative requested
quantity) and Edit (which checks both bounds) — while bulk import checks
only non-negativity and can store current_quantity above initial_quantity
(and the delete-restoration and component create/update paths perform no
upper-bound check at all). -/
theorem c3_bounds_on_validating_paths :
    (∀ (comp : Component) (req : IssueRequest) (now nid : Nat)
      (c : Component) (t : Transaction),
      0 ≤ req.quantity_issued → compBounds comp →
      issueTransaction comp req now nid = .ok c t → compBounds c) ∧
      (∀ (comp : Component) (txns : List Transaction) (req : ReturnRequest)
        (now : Nat),
        0 ≤ req.quantity_returned → compBounds comp →
        (returnTransaction comp txns req now).error = none →
        compBounds (returnTransaction comp txns req now).comp) ∧
      (∀ (comp : Component) (txn : Transaction) (r : Int) (now : Nat),
        compBounds comp →
        compBounds (updateTransactionReturned comp txn r now).comp) := by
  refine ⟨?_, ?_, ?_⟩
  · intro comp req now nid c t hq hb h
    obtain ⟨hle, rfl, -⟩ := (issueTransaction_ok_iff comp req now nid).mp h
    unfold compBounds at *
    simp only at *
    omega
  · intro comp txns req now hq hb herr
    rcases returnTransaction_comp_cases comp txns req now with
      ⟨-, e, he⟩ | ⟨-, hcomp, hle⟩
    · rw [herr] at he; cases he
    · rw [hcomp]
      unfold compBounds at *
      simp only at *
      omega
  · intro comp txn r now hb
    rcases updateTransactionReturned_comp_cases comp txn r now with
      h | ⟨-, hcomp, h0, hle⟩
    · rw [h]; exact hb
    · rw [hcomp]
      unfold compBounds at *
      simp only at *
      omega

/-- Closed instance of the issue conjunct of the amended C3: the bounds
hold after issuing 21 of the 25-unit stock. -/
theorem c3_bounds_witness : compBounds piCompAfter :=
  c3_bounds_on_validating_paths.1 piComp piIssueReq 100 5 piCompAfter piTxn
    (by decide) (by decide) (by decide)

/-- C4: quantity_returned + pending_quantity = quantity_issued holds for
the transaction rows each of the four operations leaves behind: the row an
issue creates, every row after a return (assuming table-wide ids are
unique and the invariant held before), the row after an edit (assuming it
held before), and every surviving row after a delete. -/
theorem c4_returned_plus_pending_eq_issued :
    (∀ (comp : Component) (req : IssueRequest) (now nid : Nat)
      (c : Component) (t : Transaction),
      issueTransaction comp req now nid = .ok c t → txnInvariant t) ∧
      (∀ (comp : Component) (txns : List Transaction) (req : ReturnRequest)
        (now : Nat), (txns.map Transaction.id).Nodup →
        (∀ t ∈ txns, txnInvariant t) →
        ∀ t2 ∈ (returnTransaction comp txns req now).txns, txnInvariant t2) ∧
      (∀ (comp : Component) (txn : Transaction) (r : Int) (now : Nat),
        txnInvariant txn →
        txnInvariant (updateTransactionReturned comp txn r now).txn) ∧
      (∀ (comps : List Component) (txns : List Transaction) (tid : Nat),
        (∀ t ∈ txns, txnInvariant t) →
        ∀ t2 ∈ (deleteTransaction comps txns tid).txns, txnInvariant t2) := by
  refine ⟨?_, ?_, ?_, ?_⟩
  · intro comp req now nid c t h
    obtain ⟨-, -, rfl⟩ := (issueTransaction_ok_iff comp req now nid).mp h
    unfold txnInvariant
    simp only
    omega
  · intro comp txns req now hnodup hinv t2 ht2
    rcases returnTransaction_txns_cases comp txns req now with
      h | ⟨issued, hsel, -, htxns⟩
    · rw [h] at ht2; exact hinv t2 ht2
    · rw [htxns] at ht2
      obtain ⟨t, ht, rfl⟩ := List.mem_map.mp ht2
      by_cases hid : t.id = issued.id
      · have hissued : issued ∈ txns :=
          List.mem_of_mem_filter (selectOldest_mem_min hsel).1
        have : t = issued := List.inj_on_of_nodup_map hnodup ht hissued hid
        subst this
        rw [if_pos hid]
        have := hinv t ht
        unfold txnInvariant at *
        simp only at *
        omega
      · rw [if_neg hid]
        exact hinv t ht
  · intro comp txn r now hinv
    rcases updateTransactionReturned_txn_cases comp txn r now with
      h | ⟨h1, h2, h3⟩
    · rw [h]; exact hinv
    · unfold txnInvariant
      rw [h1, h2, h3]
      omega
  · intro comps txns tid hinv t2 ht2
    simp only [deleteTransaction] at ht2
    exact hinv t2 (List.mem_of_mem_filter ht2)

/-- Closed instance of the issue conjunct of C4: the balance invariant
holds for the transaction created by the 21-unit issue. -/
theorem c4_returned_plus_pending_witness : txnInvariant piTxn :=
  c4_returned_plus_pending_eq_issued.1 piComp piIssueReq 100 5 piCompAfter
    piTxn (by decide)

/-- C5: a return with no matching open transaction (same component, lab,
recipient, positive pending) fails with NoActiveIssue mutating nothing;
otherwise the selected transaction is a matching one with minimal
issue_date (FIFO), an over-return against it fails mutating nothing, and
rows other than the selected one are never touched. -/
theorem c5_return_fifo_single_settlement :
    ∀ (comp : Component) (txns : List Transaction) (req : ReturnRequest)
      (now : Nat),
      ((∀ t ∈ txns, matchesReturn req t = false) →
        returnTransaction comp txns req now =
          { error := some "No active issued transactions found for return",
            comp := comp, txns := txns }) ∧
      (∀ sel, selectOldest (txns.filter (matchesReturn req)) = some sel →
        (sel ∈ txns ∧ matchesReturn req sel = true) ∧
        (∀ u ∈ txns, matchesReturn req u = true →
          sel.issue_date ≤ u.issue_date) ∧
        (sel.pending_quantity < req.quantity_returned →
          returnTransaction comp txns req now =
            { error := some "Cannot return more than pending quantity",
              comp := comp, txns := txns }) ∧
        (∀ u ∈ txns, u.id ≠ sel.id →
          u ∈ (returnTransaction comp txns req now).txns)) := by
  intro comp txns req now
  constructor
  · intro hnone
    have hfilter : txns.filter (matchesReturn req) = [] := by
      rw [List.filter_eq_nil_iff]
      intro t ht
      rw [hnone t ht]
      simp
    simp [returnTransaction, hfilter, selectOldest]
  · intro sel hsel
    have hmm := selectOldest_mem_min hsel
    have hselmem : sel ∈ txns := List.mem_of_mem_filter hmm.1
    have hselmatch : matchesReturn req sel = true :=
      List.of_mem_filter hmm.1
    refine ⟨⟨hselmem, hselmatch⟩, ?_, ?_, ?_⟩
    · intro u hu hmatch
      exact hmm.2 u (List.mem_filter.mpr ⟨hu, hmatch⟩)
    · intro hover
      simp only [returnTransaction, hsel]
      rw [if_pos hover]
    · intro u hu hne
      rcases returnTransaction_txns_cases comp txns req now with
        h | ⟨issued, hsel2, -, htxns⟩
      · rw [h]; exact hu
      · rw [hsel] at hsel2
        injection hsel2 with hsel2
        subst hsel2
        rw [htxns]
        refine List.mem_map.mpr ⟨u, hu, ?_⟩
        rw [if_neg hne]

/-- Closed instance of C5: with a younger (10 pending, issue_date 500) and
an older (2 pending, issue_date 300) open issue for the same recipient,
returning 5 selects the older one and fails with over-return, mutating
nothing. -/
theorem c5_return_fifo_witness :
    returnTransaction c5Comp [c5TxnNew, c5TxnOld] c5Req 600 =
      { error := some "Cannot return more than pending quantity",
        comp := c5Comp, txns := [c5TxnNew, c5TxnOld] } ∧
      c5TxnOld.issue_date ≤ c5TxnNew.issue_date := by
  have h := (c5_return_fifo_single_settlement c5Comp [c5TxnNew, c5TxnOld]
    c5Req 600).2 c5TxnOld (by decide)
  exact ⟨h.2.2.1 (by decide), h.2.1 c5TxnNew (by decide) (by decide)⟩

/-- C7: issuing a positive quantity within stock (with the bounds invariant
holding and a fresh transaction id) and then returning exactly that
quantity, when the created issue is the recipient's only open issue for
that component and lab, restores current_quantity to its pre-issue value
and leaves the transaction fully settled: status returned, return_date
populated, pending 0. -/
theorem c7_issue_full_return_round_trip :
    ∀ (comp : Component) (iq : IssueRequest) (txns : List Transaction)
      (req : ReturnRequest) (now1 now2 nid : Nat) (comp1 : Component)
      (txn1 : Transaction),
      0 < iq.quantity_issued →
      iq.quantity_issued ≤ comp.current_quantity →
      comp.current_quantity ≤ comp.initial_quantity →
      (∀ t ∈ txns, matchesReturn req t = false) →
      (∀ t ∈ txns, t.id ≠ nid) →
      req.component_name = iq.component_name →
      req.lab_id = iq.lab_id →
      req.issued_to = iq.issued_to →
      req.quantity_returned = iq.quantity_issued →
      issueTransaction comp iq now1 nid = .ok comp1 txn1 →
      ∃ tFinal,
        (returnTransaction comp1 (txns ++ [txn1]) req now2).error = none ∧
        (returnTransaction comp1 (txns ++ [txn1]) req now2).comp.current_quantity
          = comp.current_quantity ∧
        (returnTransaction comp1 (txns ++ [txn1]) req now2).txns
          = txns ++ [tFinal] ∧
        tFinal.status = "returned" ∧
        tFinal.return_date = some now2 ∧
        tFinal.pending_quantity = 0 ∧
        tFinal.quantity_returned = iq.quantity_issued := by
  intro comp iq txns req now1 now2 nid comp1 txn1 hpos hle hbound hnomatch
    hfresh hcn hlid hito hqr hiss
  obtain ⟨-, hc1, ht1⟩ := (issueTransaction_ok_iff comp iq now1 nid).mp hiss
  have fid : txn1.id = nid := by rw [ht1]
  have fcn : txn1.component_name = iq.component_name := by rw [ht1]
  have flid : txn1.lab_id = iq.lab_id := by rw [ht1]
  have fito : txn1.issued_to = iq.issued_to := by rw [ht1]
  have fqr0 : txn1.quantity_returned = 0 := by rw [ht1]
  have fpend : txn1.pending_quantity = iq.quantity_issued := by rw [ht1]
  have fcur : comp1.current_quantity =
      comp.current_quantity - iq.quantity_issued := by rw [hc1]
  have finit : comp1.initial_quantity = comp.initial_quantity := by rw [hc1]
  have hmatch : matchesReturn req txn1 = true := by
    simp [matchesReturn, fcn, flid, fito, fpend, hcn, hlid, hito, hpos]
  have hfilterpre : txns.filter (matchesReturn req) = [] :=
    List.filter_eq_nil_iff.mpr fun t ht => by rw [hnomatch t ht]; simp
  have hsel : selectOldest
      ((txns ++ [txn1]).filter (matchesReturn req)) = some txn1 := by
    rw [List.filter_append, hfilterpre, List.nil_append,
      List.filter_cons_of_pos hmatch]
    rfl
  have hfull : txn1.pending_quantity = req.quantity_returned := by
    rw [fpend, hqr]
  have hstock : comp1.current_quantity + req.quantity_returned ≤
      comp1.initial_quantity := by
    rw [fcur, finit]
    omega
  rw [returnTransaction_full_return _ _ _ now2 _ hsel hfull hstock]
  refine ⟨{ txn1 with
      quantity_returned := txn1.quantity_returned + req.quantity_returned,
      pending_quantity := 0,
      status := "returned",
      return_date := some now2 }, rfl, ?_, ?_, rfl, rfl, rfl, ?_⟩
  · show comp1.current_quantity + req.quantity_returned =
      comp.current_quantity
    rw [fcur]
    omega
  · simp only [List.map_append, List.map_singleton, if_pos rfl]
    congr 1
    refine (List.map_congr_left fun t ht => ?_).trans (List.map_id txns)
    exact if_neg fun h => hfresh t ht (fid ▸ h)
  · show txn1.quantity_returned + req.quantity_returned =
      iq.quantity_issued
    rw [fqr0, hqr]
    omega

/-- What a successful UID scan guarantees: the sequence number is in range,
free, and every earlier number in range is taken. -/
theorem scanSeq_eq_some {used : List String} {code : String} :
    ∀ (fuel seq n : Nat), scanSeq used code seq fuel = some n →
      mkUid code n ∉ used ∧ seq ≤ n ∧ n < seq + fuel ∧
        ∀ m, seq ≤ m → m < n → mkUid code m ∈ used := by
  intro fuel
  induction fuel with
  | zero => intro seq n h; simp [scanSeq] at h
  | succ k ih =>
    intro seq n h
    rw [scanSeq] at h
    by_cases hm : mkUid code seq ∈ used
    · rw [if_pos hm] at h
      obtain ⟨h1, h2, h3, h4⟩ := ih (seq + 1) n h
      refine ⟨h1, by omega, by omega, fun m hm1 hm2 => ?_⟩
      rcases Nat.lt_or_ge m (seq + 1) with hcase | hcase
      · have : m = seq := by omega
        subst this
        exact hm
      · exact h4 m hcase hm2
    · rw [if_neg hm] at h
      cases h
      exact ⟨hm, Nat.le_refl _, by omega, fun m h1 h2 => by omega⟩

/-- When every sequence number the scan can reach is taken, the scan runs
out of attempts. -/
theorem scanSeq_eq_none_of_all_taken {used : List String} {code : String} :
    ∀ (fuel seq : Nat),
      (∀ m, seq ≤ m → m < seq + fuel → mkUid code m ∈ used) →
      scanSeq used code seq fuel = none := by
  intro fuel
  induction fuel with
  | zero => intro seq _; rfl
  | succ k ih =>
    intro seq hall
    rw [scanSeq]
    rw [if_pos (hall seq (Nat.le_refl _) (by omega))]
    exact ih (seq + 1) fun m h1 h2 => hall m (by omega) (by omega)

/-- Each row contributes exactly one outcome, and an outcome counts as
imported exactly when it is not a failure. -/
theorem collectCount_add_failCount :
    ∀ outs : List RowCore, collectCount outs + failCount outs = outs.length := by
  intro outs
  induction outs with
  | nil => rfl
  | cons o os ih =>
    cases o <;> simp only [collectCount, failCount, rowCount, List.length_cons]
      <;> omega

/-- Every message of a labelled row outcome carries the row's 1-indexed
label. -/
theorem attachIndex_message_shape (idx : Nat) (o : RowCore) :
    ∀ m ∈ rowMessages (attachIndex idx o),
      ∃ rest, m = "Row " ++ toString (idx + 1) ++ ": " ++ rest := by
  cases o <;> simp [attachIndex, rowMessages]

/-- The outcome list of a run has one entry per input row. -/
theorem runRows_length (sess : Session) :
    ∀ (rows : List ImportRow) (st : ImportState) (idx : Nat),
      (runRows sess st idx rows).2.length = rows.length := by
  intro rows
  induction rows with
  | nil => intro st idx; rfl
  | cons r rs ih =>
    intro st idx
    simp only [runRows, List.length_cons]
    rw [ih]

/-- Messages of a run are labelled with 1-indexed row numbers within the
input range. -/
theorem runRows_message_shape (sess : Session) :
    ∀ (rows : List ImportRow) (st : ImportState) (idx : Nat),
      ∀ m ∈ collectMessages (runRows sess st idx rows).2,
        ∃ k rest, idx + 1 ≤ k ∧ k ≤ idx + rows.length ∧
          m = "Row " ++ toString k ++ ": " ++ rest := by
  intro rows
  induction rows with
  | nil => intro st idx m hm; simp [runRows, collectMessages] at hm
  | cons r rs ih =>
    intro st idx m hm
    simp only [runRows, collectMessages] at hm
    rcases List.mem_append.mp hm with hm | hm
    · obtain ⟨rest, hrest⟩ :=
        attachIndex_message_shape idx (processRowCore sess st r).2 m hm
      exact ⟨idx + 1, rest, Nat.le_refl _, by simp, hrest⟩
    · obtain ⟨k, rest, hk1, hk2, hrest⟩ := ih _ (idx + 1) m hm
      exact ⟨k, rest, by omega, by simp at hk2 ⊢; omega, hrest⟩

/-- Runs decompose over list append: the rows after a prefix are processed
from the state the prefix left behind, whatever the prefix's outcomes
were. -/
theorem runRows_append (sess : Session) :
    ∀ (xs ys : List ImportRow) (st : ImportState) (idx : Nat),
      (runRows sess st idx (xs ++ ys)).2 =
        (runRows sess st idx xs).2 ++
          (runRows sess (runRows sess st idx xs).1 (idx + xs.length) ys).2 := by
  intro xs
  induction xs with
  | nil => intro ys st idx; rfl
  | cons x xr ih =>
    intro ys st idx
    simp only [List.cons_append, runRows, List.length_cons]
    refine congrArg (List.cons _) ?_
    refine (ih ys (processRow sess st idx x).1 (idx + 1)).trans ?_
    rw [show idx + 1 + xr.length = idx + (xr.length + 1) by omega]

/-- Closed instance of C7: issue 21 Raspberry Pi units, return all 21; the
stock is back at 25 and the transaction is fully settled. -/
theorem c7_round_trip_witness :
    (returnTransaction piCompAfter [piTxn]
        ⟨"Raspberry Pi 4", 2, "Asha", 21⟩ 200).error = none ∧
      (returnTransaction piCompAfter [piTxn]
        ⟨"Raspberry Pi 4", 2, "Asha", 21⟩ 200).comp.current_quantity = 25 := by
  obtain ⟨tF, h1, h2, -⟩ := c7_issue_full_return_round_trip piComp piIssueReq
    [] ⟨"Raspberry Pi 4", 2, "Asha", 21⟩ 100 200 5 piCompAfter piTxn
    (by decide) (by decide) (by decide) (by simp) (by simp)
    rfl rfl rfl rfl (by decide)
  exact ⟨h1, h2⟩

/-- C8 fails on the code in one corner: when the first digit run of the lab
display code is all zeros ("LAB-000"), stripping the leading zeros leaves
nothing and the code falls back to "1" (app.py 107: lstrip-or-"1"),
yielding lab code "L1" and uid "COML1-001" — neither "L" followed by the
stripped digits (empty) nor the first-two-letters fallback, which the
claim's derivation predicts. -/
theorem c8_all_zero_digit_run_defaults_to_one :
    generate_component_uid [zeroLab] 7 [] 0 = some "COML1-001" ∧
      firstDigitRun zeroLab.lab_id = some "000" ∧
      stripLeadingZeros "000" = "" ∧
      labCode zeroLab = "L1" ∧
      "COML1-001" ≠
        "COM" ++ ("L" ++ stripLeadingZeros "000") ++ "-" ++ pad3 1 ∧
      "COML1-001" ≠
        "COM" ++ toUpperStr (zeroLab.name.take 2) ++ "-" ++ pad3 1 := by
  decide

/-- C8 amended: UID generation returns nothing when the lab is not
resolvable; otherwise it derives the lab code as L followed by the first
digit run of the display code with leading zeros stripped — defaulting to
"1" when that strips to nothing — or the upper-cased first two characters
of the lab name when there are no digits; it returns the first free
COM<labcode>-<3-digit-padded n> for n in 1..999 (all smaller n being
taken), and a timestamp fallback when all 999 are taken; with no components
of the lab code the first call yields COML3-001 and, after persisting it,
the next yields COML3-002. -/
theorem c8_uid_generation_characterization :
    (∀ (labs : List Lab) (labPk : Nat) (existing : List Component)
      (ts : Nat), labs.find? (fun l => l.id == labPk) = none →
      generate_component_uid labs labPk existing ts = none) ∧
      (∀ (labs : List Lab) (labPk : Nat) (existing : List Component)
        (ts : Nat) (lab : Lab),
        labs.find? (fun l => l.id == labPk) = some lab →
        (∀ n, 1 ≤ n → n ≤ 999 →
          mkUid (labCode lab) n ∈ usedUids existing) →
        generate_component_uid labs labPk existing ts =
          some ("COM" ++ labCode lab ++ "-" ++ toString ts)) ∧
      (∀ (labs : List Lab) (labPk : Nat) (existing : List Component)
        (ts : Nat) (lab : Lab) (n : Nat),
        labs.find? (fun l => l.id == labPk) = some lab →
        scanSeq (usedUids existing) (labCode lab) 1 999 = some n →
        generate_component_uid labs labPk existing ts =
            some (mkUid (labCode lab) n) ∧
          mkUid (labCode lab) n ∉ usedUids existing ∧
          1 ≤ n ∧ n ≤ 999 ∧
          ∀ m, 1 ≤ m → m < n →
            mkUid (labCode lab) m ∈ usedUids existing) ∧
      (∀ lab : Lab,
        (firstDigitRun lab.lab_id = none →
          labCode lab = toUpperStr (lab.name.take 2)) ∧
        ∀ d, firstDigitRun lab.lab_id = some d →
          labCode lab = "L" ++
            (if stripLeadingZeros d = "" then "1" else stripLeadingZeros d)) ∧
      generate_component_uid [hubLab] 3 [] 0 = some "COML3-001" ∧
      generate_component_uid [hubLab] 3 [hubComp] 0 = some "COML3-002" := by
  refine ⟨?_, ?_, ?_, ?_, by decide, by decide⟩
  · intro labs labPk existing ts hnone
    unfold generate_component_uid
    rw [hnone]
  · intro labs labPk existing ts lab hfind hall
    simp only [generate_component_uid, hfind]
    rw [scanSeq_eq_none_of_all_taken 999 1
      fun m h1 h2 => hall m h1 (by omega)]
  · intro labs labPk existing ts lab n hfind hscan
    obtain ⟨h1, h2, h3, h4⟩ := scanSeq_eq_some 999 1 n hscan
    refine ⟨?_, h1, h2, by omega, h4⟩
    simp only [generate_component_uid, hfind]
    rw [hscan]
  · intro lab
    constructor
    · intro hnone
      unfold labCode
      rw [hnone]
    · intro d hd
      unfold labCode
      rw [hd]

/-- Closed instance of the lab-not-found part of the amended C8. -/
theorem c8_uid_generation_witness :
    generate_component_uid [] 5 [] 0 = none :=
  c8_uid_generation_characterization.1 [] 5 [] 0 rfl

/-- C9: an import reports one total per input row, each row yields exactly
one outcome (imported or one error/info message labelled with its 1-indexed
row number), the imported count plus the failed-row count equals the row
count, and the rows after any prefix are processed regardless of what the
prefix's rows did — a failing row never aborts the batch.  Scenario E: 3
rows where row 2 names a nonexistent lab yield imported_count 2, one error
for row 2, total 3. -/
theorem c9_import_row_isolation :
    (∀ (sess : Session) (st : ImportState) (rows : List ImportRow),
      (import_components sess st rows).total_rows = rows.length) ∧
      (∀ (sess : Session) (st : ImportState) (idx : Nat)
        (rows : List ImportRow),
        (runRows sess st idx rows).2.length = rows.length) ∧
      (∀ (sess : Session) (st : ImportState) (rows : List ImportRow),
        (import_components sess st rows).imported_count +
          failCount (runRows sess st 0 rows).2 = rows.length) ∧
      (∀ (sess : Session) (st : ImportState) (rows : List ImportRow),
        ∀ m ∈ (import_components sess st rows).errors,
          ∃ k rest, 1 ≤ k ∧ k ≤ rows.length ∧
            m = "Row " ++ toString k ++ ": " ++ rest) ∧
      (∀ (sess : Session) (st : ImportState) (xs ys : List ImportRow),
        (runRows sess st 0 (xs ++ ys)).2 =
          (runRows sess st 0 xs).2 ++
            (runRows sess (runRows sess st 0 xs).1 xs.length ys).2) ∧
      import_components .admin e5State [e5Row1, e5Row2, e5Row3] =
        { imported_count := 2,
          errors := ["Row 2: Lab 'Ghost Lab' not found"],
          total_rows := 3 } := by
  refine ⟨fun sess st rows => rfl, fun sess st idx rows =>
    runRows_length sess rows st idx, ?_, ?_, ?_, by decide⟩
  · intro sess st rows
    show collectCount (runRows sess st 0 rows).2 +
      failCount (runRows sess st 0 rows).2 = rows.length
    rw [collectCount_add_failCount]
    exact runRows_length sess rows st 0
  · intro sess st rows m hm
    obtain ⟨k, rest, hk1, hk2, hrest⟩ :=
      runRows_message_shape sess rows st 0 m hm
    exact ⟨k, rest, hk1, by omega, hrest⟩
  · intro sess st xs ys
    have h := runRows_append sess xs ys st 0
    rw [Nat.zero_add] at h
    exact h

/-- Closed instance of C9 at Scenario E, with the total and split taken
from the general theorem. -/
theorem c9_import_row_isolation_witness :
    (import_components .admin e5State [e5Row1, e5Row2, e5Row3]).total_rows
        = 3 ∧
      (import_components .admin e5State
        [e5Row1, e5Row2, e5Row3]).imported_count = 2 ∧
      (runRows .admin e5State 0 ([e5Row1] ++ [e5Row2, e5Row3])).2 =
        (runRows .admin e5State 0 [e5Row1]).2 ++
          (runRows .admin (runRows .admin e5State 0 [e5Row1]).1 1
            [e5Row2, e5Row3]).2 := by
  refine ⟨c9_import_row_isolation.1 .admin e5State [e5Row1, e5Row2, e5Row3],
    by decide, ?_⟩
  exact c9_import_row_isolation.2.2.2.2.1 .admin e5State [e5Row1]
    [e5Row2, e5Row3]

end KosInventory
